import Mathlib

/-!
Verification of the admission-controller core of `join_captcha_bot.py`.

The Python source is shallowly embedded: each relevant function is translated
to a computable Lean definition over explicit state.  Time is modelled in
seconds as a rational number (Python `time()` returns seconds); delays given to
the self-destruct scheduler are in minutes, as in the source.  Transport calls
(Telegram API) are modelled by oracle parameters giving their outcome, and each
attempted call is recorded as an `Action`.
-/

namespace CaptchaBot

/-! ## String helpers (Python `str.lower`, `in`, `int()`, `str.split`) -/

/-- Character-list version of the Python substring test `needle in hay`
restricted to a needle placed at the start of `hay`. -/
def listStartsWith : List Char → List Char → Bool
  | [], _ => true
  | _ :: _, [] => false
  | a :: as, b :: bs => a == b && listStartsWith as bs

/-- Python substring containment `needle in hay` on character lists
(`"" in s` is `True` in Python, matched by the base cases here). -/
def listContainsSub (needle : List Char) : List Char → Bool
  | [] => needle.isEmpty
  | h :: rest => listStartsWith needle (h :: rest) || listContainsSub needle rest

/-- Python `str.lower()` (per-character lowering). -/
def strLower (s : String) : String := ⟨s.data.map Char.toLower⟩

/-- Leading-whitespace removal on a character list. -/
def dropLeadingWhitespace : List Char → List Char
  | [] => []
  | c :: rest => if c.isWhitespace then dropLeadingWhitespace rest else c :: rest

/-- Python `str.strip()`: remove surrounding whitespace. -/
def pyStrip (s : List Char) : List Char :=
  (dropLeadingWhitespace (dropLeadingWhitespace s.reverse).reverse)

/-- Embeds `is_int` from the source: Python `int(s)` succeeds on an optionally
signed, whitespace-stripped, nonempty digit string. -/
def is_int (s : String) : Bool :=
  let t := pyStrip s.data
  let digits := match t with
    | c :: rest => if c == '-' || c == '+' then rest else t
    | [] => []
  !digits.isEmpty && digits.all Char.isDigit

/-- Python `str.split()` without arguments: split on whitespace, dropping
empty pieces. -/
def pySplit (s : String) : List String :=
  (s.split Char.isWhitespace).filter (fun w => w != "")

/-- Embeds the alias scan of `msg_nocmd` (a word longer than one character
starting with an at sign). -/
def has_alias (msg_text : String) : Bool :=
  (pySplit msg_text).any (fun w => w.length > 1 && w.front == '@')

/-! ## Telegram message objects and the self-destruct scheduler -/

/-- Sender object of a telegram message; `id` is `none` when the attribute is
absent (Python `hasattr` test fails). -/
structure TgUser where
  id : Option Int
  deriving DecidableEq, Repr

/-- Telegram message object as inspected by `tlg_msg_to_selfdestruct_in`:
each field is `none` when the corresponding attribute is absent. -/
structure TgMessage where
  chat_id : Option Int
  message_id : Option Int
  from_user : Option TgUser
  deriving DecidableEq, Repr

/-- One entry of `to_delete_in_time_messages_list` (field names follow the
`OrderedDict` keys of the source). -/
structure SchedMsg where
  Chat_id : Int
  User_id : Int
  Msg_id : Int
  delete_time : ℚ
  deriving DecidableEq, Repr

/-- Embeds `tlg_msg_to_selfdestruct_in(message, time_delete_min)`: checks the
required attributes in source order, and on success appends one entry whose
deletion deadline is `time() + time_delete_min*60`. Returns the Python return
value together with the updated list. -/
def tlg_msg_to_selfdestruct_in (now : ℚ) (message : Option TgMessage)
    (time_delete_min : ℚ) (lst : List SchedMsg) : Bool × List SchedMsg :=
  match message with
  | none => (false, lst)
  | some m =>
    match m.chat_id with
    | none => (false, lst)
    | some chat_id =>
      match m.message_id with
      | none => (false, lst)
      | some msg_id =>
        match m.from_user with
        | none => (false, lst)
        | some fu =>
          match fu.id with
          | none => (false, lst)
          | some user_id =>
            (true, lst ++ [⟨chat_id, user_id, msg_id, now + time_delete_min * 60⟩])

/-- The attribute test performed by `tlg_msg_to_selfdestruct_in`:
the message exists and has `chat_id`, `message_id` and `from_user.id`. -/
def msg_has_required_attrs : Option TgMessage → Bool
  | none => false
  | some m =>
    m.chat_id.isSome && m.message_id.isSome &&
      (match m.from_user with
       | none => false
       | some fu => fu.id.isSome)

/-- The scheduler entry built from a message that passed the attribute test
(the `getD` defaults are unreachable under that guard). -/
def schedEntryOf (now time_delete_min : ℚ) (m : TgMessage) : SchedMsg :=
  ⟨m.chat_id.getD 0,
   ((m.from_user.getD ⟨none⟩).id).getD 0,
   m.message_id.getD 0,
   now + time_delete_min * 60⟩

/-! ## Per-chat configuration store (`get_chat_config` / `save_config_property`)

The persistence primitive `TSjson.read`/`TSjson.write` lives in `tsjson.py`,
which is not part of the provided sources.  Modelled from the spec: a read
yields `none` for an absent or unreadable document (treated as "use defaults
for all keys"), otherwise the stored key/value document; a write replaces the
document.  The document itself is an association list, mirroring the
(ordered) JSON dictionary.  The default values come from `constants.py`
(also absent), so they are a parameter `defaults`. -/

/-- Keys of the per-chat configuration document, exactly those of
`get_default_config_data`. -/
inductive ConfigKey
  | Title | Link | Enabled | Restrict_Non_Text | Captcha_Time
  | Captcha_Difficulty_Level | Captcha_Chars_Mode | Language | Welcome_Msg
  | Last_User_Solve | User_Solve_Result | Ignore_List | Allowed | Protected
  | Protection_Current_User | Protection_Current_Time | Connected_Group
  | Trigger_List | Question_List | Trigger_Char
  deriving DecidableEq, Repr

/-- Key order of the `OrderedDict` built by `get_default_config_data`. -/
def configKeys : List ConfigKey :=
  [.Title, .Link, .Enabled, .Restrict_Non_Text, .Captcha_Time,
   .Captcha_Difficulty_Level, .Captcha_Chars_Mode, .Language, .Welcome_Msg,
   .Last_User_Solve, .User_Solve_Result, .Ignore_List, .Allowed, .Protected,
   .Protection_Current_User, .Protection_Current_Time, .Connected_Group,
   .Trigger_List, .Question_List, .Trigger_Char]

/-- Python dictionary store `d[k] = v`: overwrite in place if present,
else append. -/
def pyDictSet {V : Type} (d : List (ConfigKey × V)) (k : ConfigKey) (v : V) :
    List (ConfigKey × V) :=
  if d.any (fun p => p.1 == k) then
    d.map (fun p => if p.1 == k then (k, v) else p)
  else d ++ [(k, v)]

/-- Python dictionary lookup `d[k]` / membership `k in d`. -/
def pyDictGet {V : Type} (d : List (ConfigKey × V)) (k : ConfigKey) : Option V :=
  (d.find? (fun p => p.1 == k)).map Prod.snd

/-- Python truthiness test `not config_data` on a read result: true for an
absent/unreadable document and for an empty one. -/
def config_read_falsy {V : Type} : Option (List (ConfigKey × V)) → Bool
  | none => true
  | some d => d.isEmpty

/-- Embeds `get_default_config_data`: the full default document, one entry per
key, with values given by the `defaults` parameter (the `CONST` values of the
absent `constants.py`). -/
def get_default_config_data {V : Type} (defaults : ConfigKey → V) :
    List (ConfigKey × V) :=
  configKeys.map (fun k => (k, defaults k))

/-- Embeds `save_config_property`: re-read the document, fall back to the full
default document when the read is falsy, set the property, write back.
Returns the document as written. -/
def save_config_property {V : Type} (defaults : ConfigKey → V)
    (stored : Option (List (ConfigKey × V))) (property : ConfigKey) (value : V) :
    List (ConfigKey × V) :=
  let config_data :=
    if config_read_falsy stored then get_default_config_data defaults
    else stored.getD []
  pyDictSet config_data property value

/-- Embeds `get_chat_config`: on a falsy read or a missing key, take the value
from the default document and durably write it back via
`save_config_property`; otherwise answer from the stored document unchanged.
Returns the value together with the document state after the call. -/
def get_chat_config {V : Type} (defaults : ConfigKey → V)
    (stored : Option (List (ConfigKey × V))) (param : ConfigKey) :
    V × List (ConfigKey × V) :=
  let read := stored.getD []
  if config_read_falsy stored || (pyDictGet read param).isNone then
    let config_data := get_default_config_data defaults
    ((pyDictGet config_data param).getD (defaults param),
     save_config_property defaults stored param
       ((pyDictGet config_data param).getD (defaults param)))
  else
    ((pyDictGet read param).getD (defaults param), read)

/-! ## Admission-controller state -/

/-- One entry of `new_users_list` (the Pending Registry). -/
structure NewUser where
  chat_id : Int
  user_id : Int
  user_name : String
  captcha_num : String
  join_time : ℚ
  join_retries : Nat
  kicked_ban : Bool
  deriving DecidableEq, Repr

/-- One entry of `to_delete_join_messages_list` (the Ephemeral Tracker):
the join service message (`msg_id_join0`, stored as the message object in the
source, modelled by its message id), the sent captcha image message id
(`msg_id_join1`), and the latest wrong-answer notice id (`msg_id_join2`,
`none` initially or when that send failed). -/
structure JoinMsgs where
  chat_id : Int
  user_id : Int
  msg_id_join0 : Int
  msg_id_join1 : Int
  msg_id_join2 : Option Int
  deriving DecidableEq, Repr

/-- The three in-memory global tables of the controller. -/
structure BotState where
  new_users : List NewUser
  join_msgs : List JoinMsgs
  sched : List SchedMsg
  deriving DecidableEq, Repr

/-- Localized notice texts used by the embedded handlers (the `TEXT[lang][key]`
lookups of the source, identified by key). -/
inductive NoticeKind
  | welcome | captchaSolved | incorrect0 | incorrect1
  | spamRm | spamNotRm
  | kickOk | kickNotInChat | kickNotRights | cantKick
  | banOk | banNotInChat | banNotRights | cantBan
  deriving DecidableEq, Repr

/-- Observable transport calls attempted by the embedded handlers. -/
inductive Action
  | deleteMsg (chat_id : Int) (msg_id : Option Int)
  | sendSelfdestruct (chat_id : Int) (notice : NoticeKind) (life_min : ℚ)
  | sendMessage (chat_id : Int) (notice : NoticeKind)
  | sendPhoto (chat_id : Int)
  | restrict (chat_id : Int) (user_id : Int)
  | kick (chat_id : Int) (user_id : Int)
  | ban (chat_id : Int) (user_id : Int)
  deriving DecidableEq, Repr

/-- Ambient configuration seen by a handler run: the chat's config values read
through `get_chat_config`, and the `CONST` lifetimes of the absent
`constants.py` (`T_DEL_MSG`, `T_DEL_WELCOME_MSG`), plus the bot's own id
(sender of bot messages entered into the scheduler). -/
structure ChatCfg where
  bot_id : Int
  Captcha_Time : ℚ
  Restrict_Non_Text : Bool
  Welcome_Msg : String
  T_DEL_MSG : ℚ
  T_DEL_WELCOME_MSG : ℚ
  deriving DecidableEq, Repr

/-- Match test on Pending Registry entries for a (chat, member) pair, as in
the source loops over `new_users_list`. -/
def nu_match (chat_id user_id : Int) (nu : NewUser) : Bool :=
  decide (nu.chat_id = chat_id ∧ nu.user_id = user_id)

/-- Match test on Ephemeral Tracker entries for a (chat, member) pair. -/
def jm_match (chat_id user_id : Int) (m : JoinMsgs) : Bool :=
  decide (m.chat_id = chat_id ∧ m.user_id = user_id)

/-- Python `list.remove(a)`: drop the first element equal to `a`. -/
def pyListRemove {α : Type} [DecidableEq α] : List α → α → List α
  | [], _ => []
  | x :: xs, a => if x = a then xs else x :: pyListRemove xs a

/-- Python `l[l.index(a)] = b`: replace the first element equal to `a` by `b`. -/
def replaceFirstEq {α : Type} [DecidableEq α] : List α → α → α → List α
  | [], _, _ => []
  | x :: xs, a, b => if x = a then b :: xs else x :: replaceFirstEq xs a b

/-- Result of a `tlg_send_selfdestruct_msg_in` call. -/
structure SendResult where
  msg_id : Option Int
  sched : List SchedMsg
  actions : List Action
  deriving Repr

/-- Embeds `tlg_send_selfdestruct_msg_in`: attempt the send (the attempt is
recorded as an action); on success (`send_result = some id`) the sent message,
whose sender is the bot, is entered into the self-destruct list; on a transport
exception (`none`) the function logs and returns `None`. -/
def tlg_send_selfdestruct_msg_in_model (now : ℚ) (bot_id chat_id : Int)
    (notice : NoticeKind) (time_delete_min : ℚ) (send_result : Option Int)
    (sched : List SchedMsg) : SendResult :=
  match send_result with
  | none => ⟨none, sched, [.sendSelfdestruct chat_id notice time_delete_min]⟩
  | some mid =>
    let r := tlg_msg_to_selfdestruct_in now
      (some ⟨some chat_id, some mid, some ⟨some bot_id⟩⟩) time_delete_min sched
    ⟨some mid, r.2, [.sendSelfdestruct chat_id notice time_delete_min]⟩

/-! ## `msg_nocmd`: pending-member processing

Embeds the part of `msg_nocmd` from the link-entity inspection through the
loop over `new_users_list` (group chat, captcha enabled, text present).  The
URL detector (a regex precompiled from a TLD list file that is not part of the
sources) is a parameter `has_url_detector`; `send_res` gives the transport
result for each notice send; `rm_result` is the `tlg_delete_msg` return code
for the spam-message removal attempt. -/

/-- Embeds the link-entity inspection of `msg_nocmd`: the first entity whose
`url` attribute is present and nonempty is appended to the text (or becomes
the text when there is none). -/
def effective_msg_text (msg_text : Option String) (entity_urls : List (Option String)) :
    Option String :=
  match entity_urls.find? (fun e => match e with | some u => u != "" | none => false) with
  | none => msg_text
  | some none => msg_text
  | some (some url) =>
    match msg_text with
    | none => some url
    | some t => some (t ++ " [" ++ url ++ "]")

/-- Embeds the join-message removal loop of the captcha-solved branch: the
first matching Ephemeral Tracker entry has its captcha image (`msg_id_join1`)
and wrong-answer notice (`msg_id_join2`) deleted — the join notice
(`msg_id_join0`) deletion is commented out in the source — and the entry is
removed; then the loop breaks. -/
def solved_remove_join_msgs (chat_id user_id : Int) :
    List JoinMsgs → List JoinMsgs × List Action
  | [] => ([], [])
  | m :: rest =>
    if jm_match chat_id user_id m then
      (rest, [.deleteMsg m.chat_id (some m.msg_id_join1), .deleteMsg m.chat_id m.msg_id_join2])
    else
      let r := solved_remove_join_msgs chat_id user_id rest
      (m :: r.1, r.2)

/-- Embeds `send_welcome_msg`: only when the update carries a `message`
attribute, and the configured welcome template is not the disabled sentinel,
the welcome message is sent with the `T_DEL_WELCOME_MSG` lifetime. -/
def send_welcome_msg_model (cfg : ChatCfg) (now : ℚ) (chat_id : Int)
    (update_has_message : Bool) (send_res : NoticeKind → Option Int)
    (sched : List SchedMsg) : List SchedMsg × List Action :=
  if update_has_message then
    if cfg.Welcome_Msg != "-" then
      let r := tlg_send_selfdestruct_msg_in_model now cfg.bot_id chat_id .welcome
        cfg.T_DEL_WELCOME_MSG (send_res .welcome) sched
      (r.sched, r.actions)
    else (sched, [])
  else (sched, [])

/-- Embeds `update_to_delete_join_msg_id(chat, user, "msg_id_join2", v)`: the
first matching entry gets `msg_id_join2 := v` and is moved to the end of the
list; then the loop breaks. -/
def update_join2 (chat_id user_id : Int) (v : Option Int) :
    List JoinMsgs → List JoinMsgs
  | [] => []
  | m :: rest =>
    if jm_match chat_id user_id m then rest ++ [{ m with msg_id_join2 := v }]
    else m :: update_join2 chat_id user_id v rest

/-- Result of a handler run: updated state, attempted transport calls, and
whether the run aborted with a Python `NameError`. -/
structure HandlerResult where
  st : BotState
  actions : List Action
  name_error : Bool
  deriving Repr

/-- Embeds the plausible-but-wrong branch of `msg_nocmd` (message of exactly 4
characters, or purely numeric): delete the wrong-answer notice of every
matching tracker entry, send the incorrect-captcha notice (default
`T_DEL_MSG` lifetime), store its id as the new `msg_id_join2`, and schedule
the member's raw message for deletion after 1 minute. -/
def wrong_attempt_branch (cfg : ChatCfg) (now : ℚ) (chat_id user_id msg_id : Int)
    (notice : NoticeKind) (send_res : NoticeKind → Option Int) (st : BotState) :
    HandlerResult :=
  let dels := (st.join_msgs.filter (jm_match chat_id user_id)).map
    (fun m => Action.deleteMsg m.chat_id m.msg_id_join2)
  let s := tlg_send_selfdestruct_msg_in_model now cfg.bot_id chat_id notice
    cfg.T_DEL_MSG (send_res notice) st.sched
  let jm' := update_join2 chat_id user_id s.msg_id st.join_msgs
  let r2 := tlg_msg_to_selfdestruct_in now
    (some ⟨some chat_id, some msg_id, some ⟨some user_id⟩⟩) 1 s.sched
  ⟨{ st with join_msgs := jm', sched := r2.2 }, dels ++ s.actions, false⟩

/-- Embeds the pending-member part of `msg_nocmd` (from the search over
`new_users_list` to the end of the loop body): the first entry matching the
sender resolves, is treated as a wrong attempt, or goes through the spam scan;
a sender with no pending entry is left untouched. -/
def msg_nocmd_pending (cfg : ChatCfg) (now : ℚ) (has_url_detector : String → Bool)
    (chat_id user_id msg_id : Int) (msg_text : String) (update_has_message : Bool)
    (send_res : NoticeKind → Option Int) (rm_result : Int) (st : BotState) :
    HandlerResult :=
  match st.new_users.find? (nu_match chat_id user_id) with
  | none => ⟨st, [], false⟩
  | some new_user =>
    if listContainsSub (strLower new_user.captcha_num).data (strLower msg_text).data then
      let j := solved_remove_join_msgs chat_id user_id st.join_msgs
      let users' := pyListRemove st.new_users new_user
      let w := send_welcome_msg_model cfg now chat_id update_has_message send_res st.sched
      let restrictActs :=
        if cfg.Restrict_Non_Text then [Action.restrict chat_id user_id] else []
      ⟨{ new_users := users', join_msgs := j.1, sched := w.1 },
        j.2 ++ [Action.deleteMsg chat_id (some msg_id)] ++ w.2 ++ restrictActs, false⟩
    else if msg_text.length == 4 then
      wrong_attempt_branch cfg now chat_id user_id msg_id .incorrect0 send_res st
    else if is_int msg_text then
      wrong_attempt_branch cfg now chat_id user_id msg_id .incorrect1 send_res st
    else if has_url_detector msg_text || has_alias msg_text then
      if rm_result = 1 then
        let s := tlg_send_selfdestruct_msg_in_model now cfg.bot_id chat_id .spamRm
          cfg.Captcha_Time (send_res .spamRm) st.sched
        ⟨{ st with sched := s.sched },
          Action.deleteMsg chat_id (some msg_id) :: s.actions, false⟩
      else if rm_result = -2 then
        let s := tlg_send_selfdestruct_msg_in_model now cfg.bot_id chat_id .spamNotRm
          cfg.Captcha_Time (send_res .spamNotRm) st.sched
        ⟨{ st with sched := s.sched },
          Action.deleteMsg chat_id (some msg_id) :: s.actions, false⟩
      else
        ⟨st, [Action.deleteMsg chat_id (some msg_id)], true⟩
    else ⟨st, [], false⟩

/-! ## `msg_new_user`: admitting a joining member

Embeds the per-member fragment of `msg_new_user` for a non-admin, non-bot,
non-ignored member in a non-protected chat with captcha enabled: stale join
messages for the pair are removed first, the captcha is sent (`img_send` is
the transport result: `none` models `send_problem`), and on success the member
is admitted with the retry count carried forward from any prior entry. -/

/-- Embeds the stale-join-message removal loop of `msg_new_user` (lines
749-759): every matching tracker entry has its join notice, captcha image and
wrong-answer notice deleted and is removed from the list.  The source loop
increments its index after an in-place removal, so the element following a
removed entry is not examined in this pass; the translation keeps that
behaviour. -/
def remove_prev_join_msgs (chat_id user_id : Int) :
    List JoinMsgs → List JoinMsgs × List Action
  | [] => ([], [])
  | m :: rest =>
    if jm_match chat_id user_id m then
      let dels := [Action.deleteMsg m.chat_id (some m.msg_id_join0),
                   Action.deleteMsg m.chat_id (some m.msg_id_join1),
                   Action.deleteMsg m.chat_id m.msg_id_join2]
      match rest with
      | [] => ([], dels)
      | n :: rest2 =>
        let r := remove_prev_join_msgs chat_id user_id rest2
        (n :: r.1, dels ++ r.2)
    else
      let r := remove_prev_join_msgs chat_id user_id rest
      (m :: r.1, r.2)

/-- Embeds the prior-entry search of `msg_new_user` (lines 811-814): the loop
scans the whole registry and keeps the last matching entry. -/
def find_prev_user (chat_id user_id : Int) (l : List NewUser) : Option NewUser :=
  (l.filter (nu_match chat_id user_id)).getLast?

/-- Embeds the admission fragment of `msg_new_user` described above.
`join_msg_id` is the id of the join service message, `captcha_number` the
expected answer produced by the challenge generator. -/
def msg_new_user_join (cfg : ChatCfg) (now : ℚ) (chat_id user_id : Int)
    (user_name captcha_number : String) (join_msg_id : Int)
    (img_send : Option Int) (st : BotState) : BotState × List Action :=
  let p := remove_prev_join_msgs chat_id user_id st.join_msgs
  match img_send with
  | none => ({ st with join_msgs := p.1 }, p.2 ++ [Action.sendPhoto chat_id])
  | some img_msg_id =>
    let s := tlg_msg_to_selfdestruct_in now
      (some ⟨some chat_id, some img_msg_id, some ⟨some cfg.bot_id⟩⟩)
      (cfg.Captcha_Time + 1 / 2) st.sched
    let new_user : NewUser :=
      ⟨chat_id, user_id, user_name, captcha_number, now, 1, false⟩
    let users' :=
      match find_prev_user chat_id user_id st.new_users with
      | none => st.new_users ++ [new_user]
      | some prev =>
        replaceFirstEq st.new_users prev { new_user with join_retries := prev.join_retries }
    let jm' := p.1 ++ [⟨chat_id, user_id, join_msg_id, img_msg_id, none⟩]
    (⟨users', jm', s.2⟩, p.2 ++ [Action.sendPhoto chat_id])

/-! ## The timeout sweep (`check_time_to_kick_not_verify_users`) -/

/-- Result of one sweep pass. -/
structure SweepResult where
  new_users : List NewUser
  join_msgs : List JoinMsgs
  sched : List SchedMsg
  actions : List Action
  deriving Repr

/-- Embeds the join-message removal loop of the sweep (lines 2180-2193): the
first matching tracker entry has its captcha image and wrong-answer notice
deleted and its join notice scheduled for self-destruction, and is removed;
then the loop breaks. -/
def sweep_remove_join_msgs (cfg : ChatCfg) (now : ℚ) (u : NewUser) :
    List JoinMsgs → List SchedMsg → List JoinMsgs × List SchedMsg × List Action
  | [], sched => ([], sched, [])
  | m :: rest, sched =>
    if jm_match u.chat_id u.user_id m then
      let r := tlg_msg_to_selfdestruct_in now
        (some ⟨some m.chat_id, some m.msg_id_join0, some ⟨some m.user_id⟩⟩)
        cfg.T_DEL_MSG sched
      (rest, r.2, [.deleteMsg m.chat_id (some m.msg_id_join1), .deleteMsg m.chat_id m.msg_id_join2])
    else
      let r := sweep_remove_join_msgs cfg now u rest sched
      (m :: r.1, r.2.1, r.2.2)

/-- Embeds `check_time_to_kick_not_verify_users`.  `ct` is the per-chat
`Captcha_Time` read through the config store; `kick_res`/`ban_res` are the
transport results of `tlg_kick_user`/`tlg_ban_user` by (chat, member);
`send_id` gives the message id of each successful notice send.  Entries whose
kicked-or-banned flag is set are purged one hour past their deadline; expired
entries are kicked (retry count below 5, incremented only on kick success) or
banned and removed (retry count 5 or more), with the notice dictated by the
transport result; in both sanction paths the flag is set and the join
messages are cleaned up.  The source loop increments its index after an
in-place removal, so the element after a removed entry is skipped in this
pass; the translation keeps that behaviour. -/
def check_time_to_kick_not_verify_users (cfg : ChatCfg) (now : ℚ) (ct : Int → ℚ)
    (kick_res ban_res : Int → Int → Int) (send_id : Int → NoticeKind → Option Int) :
    List NewUser → List JoinMsgs → List SchedMsg → SweepResult
  | [], jm, sched => ⟨[], jm, sched, []⟩
  | u :: rest, jm, sched =>
    let captcha_timeout := ct u.chat_id
    if u.kicked_ban then
      if u.join_time + captcha_timeout * 60 + 3600 ≤ now then
        match rest with
        | [] => ⟨[], jm, sched, []⟩
        | v :: rest2 =>
          let r := check_time_to_kick_not_verify_users cfg now ct kick_res ban_res send_id
            rest2 jm sched
          ⟨v :: r.new_users, r.join_msgs, r.sched, r.actions⟩
      else
        let r := check_time_to_kick_not_verify_users cfg now ct kick_res ban_res send_id
          rest jm sched
        ⟨u :: r.new_users, r.join_msgs, r.sched, r.actions⟩
    else if now < u.join_time + captcha_timeout * 60 then
      let r := check_time_to_kick_not_verify_users cfg now ct kick_res ban_res send_id
        rest jm sched
      ⟨u :: r.new_users, r.join_msgs, r.sched, r.actions⟩
    else if u.join_retries < 5 then
      let kr := kick_res u.chat_id u.user_id
      let u' : NewUser :=
        { u with
          join_retries := if kr = 1 then u.join_retries + 1 else u.join_retries,
          kicked_ban := true }
      let notice : List Action × List SchedMsg :=
        if kr = 1 then
          let s := tlg_send_selfdestruct_msg_in_model now cfg.bot_id u.chat_id .kickOk
            cfg.T_DEL_MSG (send_id u.chat_id .kickOk) sched
          (s.actions, s.sched)
        else if kr = -1 then
          let s := tlg_send_selfdestruct_msg_in_model now cfg.bot_id u.chat_id .kickNotInChat
            cfg.T_DEL_MSG (send_id u.chat_id .kickNotInChat) sched
          (s.actions, s.sched)
        else if kr = -2 then
          ([Action.sendMessage u.chat_id .kickNotRights], sched)
        else
          let s := tlg_send_selfdestruct_msg_in_model now cfg.bot_id u.chat_id .cantKick
            cfg.T_DEL_MSG (send_id u.chat_id .cantKick) sched
          (s.actions, s.sched)
      let c := sweep_remove_join_msgs cfg now u jm notice.2
      let r := check_time_to_kick_not_verify_users cfg now ct kick_res ban_res send_id
        rest c.1 c.2.1
      ⟨u' :: r.new_users, r.join_msgs, r.sched,
        (Action.kick u.chat_id u.user_id :: notice.1) ++ c.2.2 ++ r.actions⟩
    else
      let br := ban_res u.chat_id u.user_id
      let notice : NoticeKind :=
        if br = 1 then .banOk else if br = -1 then .banNotInChat
        else if br = -2 then .banNotRights else .cantBan
      let c := sweep_remove_join_msgs cfg now u jm sched
      match rest with
      | [] =>
        ⟨[], c.1, c.2.1,
          Action.ban u.chat_id u.user_id :: Action.sendMessage u.chat_id notice :: c.2.2⟩
      | v :: rest2 =>
        let r := check_time_to_kick_not_verify_users cfg now ct kick_res ban_res send_id
          rest2 c.1 c.2.1
        ⟨v :: r.new_users, r.join_msgs, r.sched,
          Action.ban u.chat_id u.user_id :: Action.sendMessage u.chat_id notice :: c.2.2
            ++ r.actions⟩

/-! ## Name resolution inside `kick_user`

`kick_user` builds its notice as `TEXT[lang][...]` in every branch, but `lang`
is neither a parameter nor a local of `kick_user`, and the module defines no
global `lang` (the module-level bindings are listed below, from the import
list, the module globals and the function definitions of the source).  Python
name resolution therefore raises `NameError` in every branch. -/

/-- Names bound at module level in `join_captcha_bot.py`: imports, module
globals and function definitions. -/
def module_global_names : List String :=
  ["re", "math", "exit", "signal", "SIGTERM", "SIGINT", "path", "remove",
   "makedirs", "listdir", "rmtree", "datetime", "timedelta", "time", "sleep",
   "strptime", "mktime", "strftime", "Thread", "Lock", "itemgetter",
   "OrderedDict", "randint", "Update", "InputMediaPhoto",
   "InlineKeyboardButton", "InlineKeyboardMarkup", "ChatPermissions",
   "ParseMode", "CallbackContext", "Updater", "CommandHandler",
   "MessageHandler", "Filters", "CallbackQueryHandler", "Defaults", "CONST",
   "TEXT", "TSjson", "CaptchaGenerator", "files_config_list",
   "to_delete_in_time_messages_list", "to_delete_join_messages_list",
   "new_users_list", "CaptchaGen", "signal_handler", "initialize_resources",
   "load_urls_regex", "load_texts_languages", "create_image_captcha",
   "update_to_delete_join_msg_id", "printts", "is_int", "add_lrm",
   "show_user_captcha", "uniq", "get_protected_list", "send_welcome_msg",
   "kick_user", "handle_request", "request_group_link", "list_admin_groups",
   "get_connected_group", "send_not_connected", "get_default_config_data",
   "save_config_property", "get_chat_config", "get_chat_config_file",
   "tlg_user_is_admin", "tlg_get_bot_admin_privileges",
   "tlg_send_selfdestruct_msg", "tlg_msg_to_selfdestruct",
   "tlg_send_selfdestruct_msg_in", "tlg_msg_to_selfdestruct_in",
   "tlg_delete_msg", "tlg_ban_user", "tlg_kick_user", "tlg_check_chat_type",
   "tlg_leave_chat", "tlg_restrict_user", "msg_new_user", "msg_notext",
   "msg_nocmd", "button_request_captcha", "cmd_start", "cmd_connect",
   "cmd_disconnect", "cmd_help", "cmd_commands", "cmd_language", "cmd_time",
   "cmd_difficulty", "cmd_captcha_mode", "cmd_welcome_msg", "cmd_add_trigger",
   "cmd_delete_trigger", "cmd_triggers", "cmd_delete_question",
   "cmd_questions", "cmd_add_question", "cmd_restrict_non_text",
   "cmd_add_ignore", "cmd_remove_ignore", "cmd_ignore_list", "cmd_enable",
   "cmd_disable", "cmd_version", "cmd_about", "cmd_captcha", "cmd_protection",
   "handle_remove_and_kicks", "selfdestruct_messages",
   "check_time_to_kick_not_verify_users", "main"]

/-- Names bound in the scope of `kick_user` itself: its parameters and the
names it assigns. -/
def kick_user_local_names : List String :=
  ["bot", "chat_id", "user_id", "user_name", "kick_result", "bot_msg", "e"]

/-- Python name resolution as seen from inside `kick_user`. -/
def kick_user_name_in_scope (n : String) : Bool :=
  kick_user_local_names.contains n || module_global_names.contains n

/-- Evaluation outcome of a Python expression: a value, or a `NameError` on an
unbound name. -/
inductive PyEval (α : Type)
  | ok (a : α)
  | nameError (n : String)
  deriving DecidableEq, Repr

/-- Embeds the notice construction of `kick_user`: every branch of the
`kick_result` dispatch evaluates `TEXT[lang][...]`, which first resolves the
name `lang`. -/
def kick_user_notice (kick_result : Int) : PyEval NoticeKind :=
  if kick_user_name_in_scope "lang" then
    .ok (if kick_result = 1 then .kickOk
         else if kick_result = -1 then .kickNotInChat
         else if kick_result = -2 then .kickNotRights
         else .cantKick)
  else .nameError "lang"

/-! ## Shared list lemmas -/

theorem filter_singleton_pred {α : Type} (q : α → Bool) (l : List α) (x : α)
    (h : l.filter q = [x]) : q x = true := by
  have hx : x ∈ l.filter q := by rw [h]; exact List.mem_singleton_self x
  exact List.of_mem_filter hx

theorem find?_eq_of_filter_eq_singleton {α : Type} (q : α → Bool) (l : List α) (x : α)
    (h : l.filter q = [x]) : l.find? q = some x := by
  induction l with
  | nil => simp at h
  | cons a l ih =>
    by_cases hq : q a
    · rw [List.filter_cons_of_pos hq] at h
      obtain ⟨rfl, -⟩ := List.cons_eq_cons.mp h
      exact List.find?_cons_of_pos _ hq
    · rw [List.filter_cons_of_neg (by simpa using hq)] at h
      rw [List.find?_cons_of_neg _ (by simpa using hq)]
      exact ih h

theorem filter_eq_nil_of_singleton_tail {α : Type} (q : α → Bool) (l : List α) (a x : α)
    (h : (a :: l).filter q = [x]) (hq : q a = true) : a = x ∧ l.filter q = [] := by
  rw [List.filter_cons_of_pos hq] at h
  exact List.cons_eq_cons.mp h

theorem pyListRemove_filter {α : Type} [DecidableEq α] (q : α → Bool) (l : List α) (x : α)
    (h : l.filter q = [x]) : (pyListRemove l x).filter q = [] := by
  induction l with
  | nil => simp at h
  | cons a l ih =>
    have hqx : q x = true := filter_singleton_pred q (a :: l) x h
    by_cases hax : a = x
    · subst hax
      obtain ⟨-, hnil⟩ := filter_eq_nil_of_singleton_tail q l a a h hqx
      simpa [pyListRemove] using hnil
    · by_cases hq : q a
      · obtain ⟨rfl, -⟩ := filter_eq_nil_of_singleton_tail q l a x h hq
        exact absurd rfl hax
      · rw [List.filter_cons_of_neg (by simpa using hq)] at h
        simpa [pyListRemove, hax, List.filter_cons_of_neg, hq] using ih h

theorem replaceFirstEq_filter {α : Type} [DecidableEq α] (q : α → Bool) (l : List α) (x y : α)
    (h : l.filter q = [x]) (hy : q y = true) :
    (replaceFirstEq l x y).filter q = [y] := by
  induction l with
  | nil => simp at h
  | cons a l ih =>
    have hqx : q x = true := filter_singleton_pred q (a :: l) x h
    by_cases hax : a = x
    · subst hax
      obtain ⟨-, hnil⟩ := filter_eq_nil_of_singleton_tail q l a a h hqx
      simp [replaceFirstEq, List.filter_cons_of_pos hy, hnil]
    · by_cases hq : q a
      · obtain ⟨rfl, -⟩ := filter_eq_nil_of_singleton_tail q l a x h hq
        exact absurd rfl hax
      · rw [List.filter_cons_of_neg (by simpa using hq)] at h
        simpa [replaceFirstEq, hax, List.filter_cons_of_neg, hq] using ih h

/-! ## C10 — `tlg_msg_to_selfdestruct_in` contract -/

/-- C10: `tlg_msg_to_selfdestruct_in` returns `True` and appends exactly one
entry, with deletion deadline equal to the call time plus `time_delete_min`
minutes, if and only if the message has `chat_id`, `message_id` and
`from_user.id` attributes; otherwise it returns `False` and leaves the
scheduled-deletion list unchanged. -/
theorem tlg_msg_to_selfdestruct_in_spec (now tdm : ℚ) (message : Option TgMessage)
    (lst : List SchedMsg) :
    (∀ m, message = some m → msg_has_required_attrs message = true →
      tlg_msg_to_selfdestruct_in now message tdm lst =
        (true, lst ++ [schedEntryOf now tdm m])) ∧
    (msg_has_required_attrs message = false →
      tlg_msg_to_selfdestruct_in now message tdm lst = (false, lst)) := by
  constructor
  · rintro m rfl hattr
    obtain ⟨mc, mm, mu⟩ := m
    cases mc with
    | none => simp [msg_has_required_attrs] at hattr
    | some c =>
      cases mm with
      | none => simp [msg_has_required_attrs] at hattr
      | some mid =>
        cases mu with
        | none => simp [msg_has_required_attrs] at hattr
        | some fu =>
          cases h : fu.id with
          | none => simp [msg_has_required_attrs, h] at hattr
          | some uid =>
            obtain ⟨fid⟩ := fu
            cases fid with
            | none => simp at h
            | some uid' =>
              simp only [Option.some.injEq] at h
              subst h
              simp [tlg_msg_to_selfdestruct_in, schedEntryOf]
  · intro hattr
    cases message with
    | none => simp [tlg_msg_to_selfdestruct_in]
    | some m =>
      obtain ⟨mc, mm, mu⟩ := m
      cases mc with
      | none => simp [tlg_msg_to_selfdestruct_in]
      | some c =>
        cases mm with
        | none => simp [tlg_msg_to_selfdestruct_in]
        | some mid =>
          cases mu with
          | none => simp [tlg_msg_to_selfdestruct_in]
          | some fu =>
            obtain ⟨fid⟩ := fu
            cases fid with
            | none => simp [tlg_msg_to_selfdestruct_in]
            | some uid => simp [msg_has_required_attrs] at hattr

/-- Witness for C10: a message with all attributes is scheduled at the call
time plus the delay in minutes; one lacking `from_user.id` is rejected with
the list unchanged. -/
theorem tlg_msg_to_selfdestruct_in_spec_witness :
    tlg_msg_to_selfdestruct_in 100 (some ⟨some 1, some 2, some ⟨some 3⟩⟩) 2 [] =
      (true, [⟨1, 3, 2, 100 + 2 * 60⟩]) ∧
    tlg_msg_to_selfdestruct_in 100 (some ⟨some 1, some 2, some ⟨none⟩⟩) 2 [] =
      (false, []) := by
  constructor
  · exact (tlg_msg_to_selfdestruct_in_spec 100 2 (some ⟨some 1, some 2, some ⟨some 3⟩⟩) []).1
      ⟨some 1, some 2, some ⟨some 3⟩⟩ rfl (by decide)
  · exact (tlg_msg_to_selfdestruct_in_spec 100 2 (some ⟨some 1, some 2, some ⟨none⟩⟩) []).2
      (by decide)

/-! ## C3 — config reads self-heal missing keys -/

theorem pyDictGet_default {V : Type} (defaults : ConfigKey → V) (k : ConfigKey) :
    pyDictGet (get_default_config_data defaults) k = some (defaults k) := by
  cases k <;> rfl

theorem pyDictGet_pyDictSet_same {V : Type} (d : List (ConfigKey × V)) (k : ConfigKey)
    (v : V) : pyDictGet (pyDictSet d k v) k = some v := by
  by_cases h : d.any (fun p => p.1 == k)
  · rw [pyDictSet, if_pos h]
    induction d with
    | nil => simp at h
    | cons p d ih =>
      by_cases hp : p.1 = k
      · simp [pyDictGet, List.find?, hp]
      · have hp' : (p.1 == k) = false := by simpa using hp
        simp only [List.any_cons, hp', Bool.false_or] at h
        simpa [pyDictGet, List.find?, hp'] using ih h
  · rw [pyDictSet, if_neg h]
    induction d with
    | nil => simp [pyDictGet, List.find?]
    | cons p d ih =>
      have hp : (p.1 == k) = false := by
        by_contra hc
        exact h (List.any_cons .. ▸ Bool.or_eq_true_iff.mpr
          (Or.inl (by simpa using hc)))
      have hd : ¬ d.any (fun p => p.1 == k) := fun hc =>
        h (List.any_cons .. ▸ Bool.or_eq_true_iff.mpr (Or.inr hc))
      simpa [pyDictGet, List.find?, hp] using ih hd

/-- C3: a config read on a chat/key never seen (absent or unreadable document,
or a document missing the key) returns the statically defined default for that
key, and the document written back before returning contains the key
explicitly with that default value. -/
theorem get_chat_config_writes_default {V : Type} (defaults : ConfigKey → V)
    (stored : Option (List (ConfigKey × V))) (param : ConfigKey)
    (h : config_read_falsy stored = true ∨ pyDictGet (stored.getD []) param = none) :
    (get_chat_config defaults stored param).1 = defaults param ∧
    pyDictGet (get_chat_config defaults stored param).2 param = some (defaults param) := by
  have hcond : (config_read_falsy stored || (pyDictGet (stored.getD []) param).isNone) = true := by
    rcases h with h | h <;> simp [h]
  rw [get_chat_config]
  simp only [hcond, if_true]
  refine ⟨by rw [pyDictGet_default, Option.getD_some], ?_⟩
  rw [pyDictGet_default, Option.getD_some, save_config_property,
    pyDictGet_pyDictSet_same]

/-- Witness for C3: reading `Captcha_Time` from an absent document yields the
default and the written document now holds that key. -/
theorem get_chat_config_writes_default_witness :
    (get_chat_config (fun _ => (7 : Int)) none .Captcha_Time).1 = 7 ∧
    pyDictGet (get_chat_config (fun _ => (7 : Int)) none .Captcha_Time).2 .Captcha_Time =
      some 7 :=
  get_chat_config_writes_default (fun _ => (7 : Int)) none .Captcha_Time (Or.inl rfl)

/-! ## C9 — `lang` is unbound in `kick_user` -/

/-- C9: the notice construction of `kick_user` raises `NameError` for every
kick result, because `lang` is neither local to `kick_user` nor a module-level
name — so the claim that `lang` is defined in every branch fails on the code. -/
theorem kick_user_notice_name_error (kick_result : Int) :
    kick_user_notice kick_result = .nameError "lang" := by
  rw [kick_user_notice, if_neg]
  rw [kick_user_name_in_scope]
  decide

/-! ## Lemmas about the Ephemeral Tracker helpers -/

theorem solved_remove_join_msgs_spec (c u : Int) (l : List JoinMsgs) (m0 : JoinMsgs)
    (h : l.filter (jm_match c u) = [m0]) :
    (solved_remove_join_msgs c u l).1.filter (jm_match c u) = [] ∧
    (solved_remove_join_msgs c u l).2 =
      [.deleteMsg m0.chat_id (some m0.msg_id_join1),
       .deleteMsg m0.chat_id m0.msg_id_join2] := by
  induction l with
  | nil => simp at h
  | cons m rest ih =>
    by_cases hq : jm_match c u m = true
    · obtain ⟨rfl, hnil⟩ := filter_eq_nil_of_singleton_tail _ rest m m0 h hq
      simp [solved_remove_join_msgs, hq, hnil]
    · rw [List.filter_cons_of_neg (by simpa using hq)] at h
      have := ih h
      simp [solved_remove_join_msgs, hq, List.filter_cons_of_neg, this.1, this.2]

theorem remove_prev_join_msgs_of_no_match (c u : Int) (l : List JoinMsgs)
    (h : l.filter (jm_match c u) = []) :
    remove_prev_join_msgs c u l = (l, []) := by
  induction l with
  | nil => rfl
  | cons m rest ih =>
    have hq : ¬ (jm_match c u m = true) := by
      intro hq
      rw [List.filter_cons_of_pos hq] at h
      simp at h
    rw [List.filter_cons_of_neg (by simpa using hq)] at h
    simp [remove_prev_join_msgs, hq, ih h]

theorem remove_prev_join_msgs_spec (c u : Int) (l : List JoinMsgs) (m0 : JoinMsgs)
    (h : l.filter (jm_match c u) = [m0]) :
    (remove_prev_join_msgs c u l).1.filter (jm_match c u) = [] ∧
    (remove_prev_join_msgs c u l).2 =
      [.deleteMsg m0.chat_id (some m0.msg_id_join0),
       .deleteMsg m0.chat_id (some m0.msg_id_join1),
       .deleteMsg m0.chat_id m0.msg_id_join2] := by
  induction l with
  | nil => simp at h
  | cons m rest ih =>
    by_cases hq : jm_match c u m = true
    · obtain ⟨rfl, hnil⟩ := filter_eq_nil_of_singleton_tail _ rest m m0 h hq
      cases rest with
      | nil => simp [remove_prev_join_msgs, hq]
      | cons n rest2 =>
        have hn : ¬ (jm_match c u n = true) := by
          intro hn
          rw [List.filter_cons_of_pos hn] at hnil
          simp at hnil
        have h2 : rest2.filter (jm_match c u) = [] := by
          rwa [List.filter_cons_of_neg (by simpa using hn)] at hnil
        simp [remove_prev_join_msgs, hq, remove_prev_join_msgs_of_no_match c u rest2 h2,
          List.filter_cons_of_neg, hn, h2]
    · rw [List.filter_cons_of_neg (by simpa using hq)] at h
      have := ih h
      simp [remove_prev_join_msgs, hq, List.filter_cons_of_neg, this.1, this.2]

theorem update_join2_filter (c u : Int) (v : Option Int) (l : List JoinMsgs) (m0 : JoinMsgs)
    (h : l.filter (jm_match c u) = [m0]) :
    (update_join2 c u v l).filter (jm_match c u) = [{ m0 with msg_id_join2 := v }] := by
  induction l with
  | nil => simp at h
  | cons m rest ih =>
    by_cases hq : jm_match c u m = true
    · obtain ⟨rfl, hnil⟩ := filter_eq_nil_of_singleton_tail _ rest m m0 h hq
      have hq' : jm_match c u { m with msg_id_join2 := v } = true := by
        simpa [jm_match] using hq
      simp [update_join2, hq, List.filter_append, hnil, hq']
    · rw [List.filter_cons_of_neg (by simpa using hq)] at h
      simp [update_join2, hq, List.filter_cons_of_neg, ih h]

/-! ## C1 — timeout escalation: kick below 5 retries, ban at 5 -/

/-- C1: for a pending member whose deadline has elapsed and whose
kicked-or-banned flag is not set, the sweep kicks and increments the retry
count when the retry count is below 5 (the entry remains in the registry, so
retry count 4 becomes 5), and at retry count 5 or more it bans the member and
removes the entry from the registry. -/
theorem sweep_timeout_kick_or_ban (cfg : ChatCfg) (now : ℚ) (ct : Int → ℚ)
    (kick_res ban_res : Int → Int → Int) (send_id : Int → NoticeKind → Option Int)
    (u : NewUser) (jm : List JoinMsgs) (sched : List SchedMsg)
    (hkb : u.kicked_ban = false)
    (hdl : u.join_time + ct u.chat_id * 60 ≤ now) :
    (u.join_retries < 5 → kick_res u.chat_id u.user_id = 1 →
      (check_time_to_kick_not_verify_users cfg now ct kick_res ban_res send_id
          [u] jm sched).new_users
        = [{ u with join_retries := u.join_retries + 1, kicked_ban := true }] ∧
      Action.kick u.chat_id u.user_id ∈
        (check_time_to_kick_not_verify_users cfg now ct kick_res ban_res send_id
          [u] jm sched).actions) ∧
    (5 ≤ u.join_retries →
      (check_time_to_kick_not_verify_users cfg now ct kick_res ban_res send_id
          [u] jm sched).new_users = [] ∧
      Action.ban u.chat_id u.user_id ∈
        (check_time_to_kick_not_verify_users cfg now ct kick_res ban_res send_id
          [u] jm sched).actions) := by
  have hlt : ¬ (now < u.join_time + ct u.chat_id * 60) := not_lt.mpr hdl
  constructor
  · intro h5 hkr
    simp [check_time_to_kick_not_verify_users, hkb, hlt, h5, hkr]
  · intro h5
    have h5' : ¬ (u.join_retries < 5) := not_lt.mpr h5
    simp [check_time_to_kick_not_verify_users, hkb, hlt, h5']

/-- Witness for C1: a member with retry count 4, deadline elapsed, kick
succeeding: the entry remains with retry count 5 and a kick was attempted. -/
theorem sweep_timeout_kick_or_ban_witness :
    (check_time_to_kick_not_verify_users ⟨9, 1, false, "-", 5, 5⟩ 100 (fun _ => 1)
        (fun _ _ => 1) (fun _ _ => 0) (fun _ _ => some 77)
        [⟨1, 2, "n", "c", 0, 4, false⟩] [] []).new_users
      = [⟨1, 2, "n", "c", 0, 5, true⟩] ∧
    Action.kick 1 2 ∈
      (check_time_to_kick_not_verify_users ⟨9, 1, false, "-", 5, 5⟩ 100 (fun _ => 1)
        (fun _ _ => 1) (fun _ _ => 0) (fun _ _ => some 77)
        [⟨1, 2, "n", "c", 0, 4, false⟩] [] []).actions :=
  (sweep_timeout_kick_or_ban ⟨9, 1, false, "-", 5, 5⟩ 100 (fun _ => 1)
    (fun _ _ => 1) (fun _ _ => 0) (fun _ _ => some 77)
    ⟨1, 2, "n", "c", 0, 4, false⟩ [] [] rfl (by norm_num)).1
    (by norm_num) rfl

/-! ## C5 — failed kick for lack of rights -/

/-- C5 counterexample: a kick failing with "no rights" (result `-2`) still sets
the kicked-or-banned flag, so the next sweep pass does not attempt the kick
again (it performs no transport call at all) — refuting the claim that the
entry "remains pending so the next sweep pass attempts the kick again". -/
theorem sweep_kick_no_rights_counterexample :
    (check_time_to_kick_not_verify_users ⟨9, 1, false, "-", 5, 5⟩ 100 (fun _ => 1)
        (fun _ _ => -2) (fun _ _ => 0) (fun _ _ => some 77)
        [⟨1, 2, "n", "c", 0, 1, false⟩] [] []).new_users
      = [⟨1, 2, "n", "c", 0, 1, true⟩] ∧
    (check_time_to_kick_not_verify_users ⟨9, 1, false, "-", 5, 5⟩ 200 (fun _ => 1)
        (fun _ _ => -2) (fun _ _ => 0) (fun _ _ => some 77)
        [⟨1, 2, "n", "c", 0, 1, true⟩] [] []).actions = [] := by
  constructor <;> norm_num [check_time_to_kick_not_verify_users]

/-- C5 (amended): when the sweep's kick fails for lack of admin rights, a
one-shot non-self-destructing notice is sent and the retry count is not
incremented, but the entry's kicked-or-banned flag is set anyway, so no later
sweep pass attempts any sanction on it (the entry is only purged an hour past
its deadline). -/
theorem sweep_kick_no_rights_one_shot (cfg : ChatCfg) (now : ℚ) (ct : Int → ℚ)
    (kick_res ban_res : Int → Int → Int) (send_id : Int → NoticeKind → Option Int)
    (u : NewUser) (jm : List JoinMsgs) (sched : List SchedMsg)
    (hkb : u.kicked_ban = false)
    (hdl : u.join_time + ct u.chat_id * 60 ≤ now)
    (h5 : u.join_retries < 5)
    (hkr : kick_res u.chat_id u.user_id = -2) :
    Action.sendMessage u.chat_id .kickNotRights ∈
      (check_time_to_kick_not_verify_users cfg now ct kick_res ban_res send_id
        [u] jm sched).actions ∧
    (check_time_to_kick_not_verify_users cfg now ct kick_res ban_res send_id
        [u] jm sched).new_users = [{ u with kicked_ban := true }] ∧
    (∀ (now2 : ℚ) (ct2 : Int → ℚ) kick2 ban2 send2 (jm2 : List JoinMsgs)
        (sched2 : List SchedMsg),
      (check_time_to_kick_not_verify_users cfg now2 ct2 kick2 ban2 send2
        [{ u with kicked_ban := true }] jm2 sched2).actions = []) := by
  have hlt : ¬ (now < u.join_time + ct u.chat_id * 60) := not_lt.mpr hdl
  refine ⟨?_, ?_, ?_⟩
  · norm_num [check_time_to_kick_not_verify_users, hkb, hlt, h5, hkr]
  · norm_num [check_time_to_kick_not_verify_users, hkb, hlt, h5, hkr]
  · intro now2 ct2 kick2 ban2 send2 jm2 sched2
    by_cases hp : u.join_time + ct2 u.chat_id * 60 + 3600 ≤ now2
    · simp [check_time_to_kick_not_verify_users, hp]
    · simp [check_time_to_kick_not_verify_users, hp]

/-- Witness for C5 (amended) at a concrete expired entry with retry count 3. -/
theorem sweep_kick_no_rights_one_shot_witness :
    Action.sendMessage 1 .kickNotRights ∈
      (check_time_to_kick_not_verify_users ⟨9, 1, false, "-", 5, 5⟩ 100 (fun _ => 1)
        (fun _ _ => -2) (fun _ _ => 0) (fun _ _ => some 77)
        [⟨1, 2, "n", "c", 0, 3, false⟩] [] []).actions ∧
    (check_time_to_kick_not_verify_users ⟨9, 1, false, "-", 5, 5⟩ 100 (fun _ => 1)
        (fun _ _ => -2) (fun _ _ => 0) (fun _ _ => some 77)
        [⟨1, 2, "n", "c", 0, 3, false⟩] [] []).new_users
      = [⟨1, 2, "n", "c", 0, 3, true⟩] ∧
    (∀ (now2 : ℚ) (ct2 : Int → ℚ) kick2 ban2 send2 (jm2 : List JoinMsgs)
        (sched2 : List SchedMsg),
      (check_time_to_kick_not_verify_users ⟨9, 1, false, "-", 5, 5⟩ now2 ct2 kick2 ban2
        send2 [⟨1, 2, "n", "c", 0, 3, true⟩] jm2 sched2).actions = []) :=
  sweep_kick_no_rights_one_shot ⟨9, 1, false, "-", 5, 5⟩ 100 (fun _ => 1)
    (fun _ _ => -2) (fun _ _ => 0) (fun _ _ => some 77)
    ⟨1, 2, "n", "c", 0, 3, false⟩ [] [] rfl (by norm_num) (by norm_num) rfl

/-! ## C6 — purge of kicked entries, re-join keeps the retry count -/

/-- C6: a Pending entry whose kicked-or-banned flag is set is purged by the
sweep exactly when the current time reaches 1 hour past its original deadline;
a member who re-joins while the entry is still present gets a fresh Pending
entry (flag cleared, join time reset) that keeps the prior retry count. -/
theorem sweep_purge_and_rejoin (cfg : ChatCfg) (u : NewUser) (hkb : u.kicked_ban = true) :
    (∀ (now : ℚ) (ct : Int → ℚ) (kick_res ban_res : Int → Int → Int)
        (send_id : Int → NoticeKind → Option Int) (jm : List JoinMsgs)
        (sched : List SchedMsg),
      ((check_time_to_kick_not_verify_users cfg now ct kick_res ban_res send_id
          [u] jm sched).new_users = []
        ↔ u.join_time + ct u.chat_id * 60 + 3600 ≤ now)) ∧
    (∀ (now : ℚ) (user_name captcha : String) (join_msg_id img_id : Int) (st : BotState),
      st.new_users.filter (nu_match u.chat_id u.user_id) = [u] →
      (msg_new_user_join cfg now u.chat_id u.user_id user_name captcha join_msg_id
          (some img_id) st).1.new_users.filter (nu_match u.chat_id u.user_id)
        = [⟨u.chat_id, u.user_id, user_name, captcha, now, u.join_retries, false⟩]) := by
  constructor
  · intro now ct kick_res ban_res send_id jm sched
    by_cases hp : u.join_time + ct u.chat_id * 60 + 3600 ≤ now
    · simp [check_time_to_kick_not_verify_users, hkb, hp]
    · simp [check_time_to_kick_not_verify_users, hkb, hp]
  · intro now user_name captcha join_msg_id img_id st hst
    have hfind : find_prev_user u.chat_id u.user_id st.new_users = some u := by
      rw [find_prev_user, hst]; rfl
    simp only [msg_new_user_join, hfind]
    exact replaceFirstEq_filter _ st.new_users u _ hst (by simp [nu_match])

/-- Witness for C6 at a concrete kicked entry with retry count 2: purged at
time 4000 (an hour past the deadline 60), and a re-join at time 50 yields a
fresh entry with retry count 2. -/
theorem sweep_purge_and_rejoin_witness :
    ((check_time_to_kick_not_verify_users ⟨9, 1, false, "-", 5, 5⟩ 4000 (fun _ => 1)
        (fun _ _ => 0) (fun _ _ => 0) (fun _ _ => some 77)
        [⟨1, 2, "n", "c", 0, 2, true⟩] [] []).new_users = []
      ↔ (0 : ℚ) + (fun (_ : Int) => (1 : ℚ)) 1 * 60 + 3600 ≤ 4000) ∧
    (msg_new_user_join ⟨9, 1, false, "-", 5, 5⟩ 50 1 2 "nn" "cc" 10 (some 11)
        ⟨[⟨1, 2, "n", "c", 0, 2, true⟩], [], []⟩).1.new_users.filter (nu_match 1 2)
      = [⟨1, 2, "nn", "cc", 50, 2, false⟩] :=
  ⟨(sweep_purge_and_rejoin ⟨9, 1, false, "-", 5, 5⟩ ⟨1, 2, "n", "c", 0, 2, true⟩ rfl).1
      4000 (fun _ => 1) (fun _ _ => 0) (fun _ _ => 0) (fun _ _ => some 77) [] [],
   (sweep_purge_and_rejoin ⟨9, 1, false, "-", 5, 5⟩ ⟨1, 2, "n", "c", 0, 2, true⟩ rfl).2
      50 "nn" "cc" 10 11 ⟨[⟨1, 2, "n", "c", 0, 2, true⟩], [], []⟩ (by decide)⟩

/-! ## C2 — re-admitting a pending member -/

/-- C2: admitting a member who already has a live Pending entry leaves exactly
one Pending entry for the pair, with the prior retry count (not reset to 1);
the prior join artifacts are deleted (join notice, captcha image, wrong-answer
notice) and replaced by the new join's artifact entry. -/
theorem msg_new_user_rejoin (cfg : ChatCfg) (now : ℚ) (chat_id user_id : Int)
    (user_name captcha : String) (join_msg_id img_id : Int) (st : BotState)
    (prev : NewUser) (pm : JoinMsgs)
    (hu : st.new_users.filter (nu_match chat_id user_id) = [prev])
    (hj : st.join_msgs.filter (jm_match chat_id user_id) = [pm]) :
    (msg_new_user_join cfg now chat_id user_id user_name captcha join_msg_id
        (some img_id) st).1.new_users.filter (nu_match chat_id user_id)
      = [⟨chat_id, user_id, user_name, captcha, now, prev.join_retries, false⟩] ∧
    (msg_new_user_join cfg now chat_id user_id user_name captcha join_msg_id
        (some img_id) st).1.join_msgs.filter (jm_match chat_id user_id)
      = [⟨chat_id, user_id, join_msg_id, img_id, none⟩] ∧
    (msg_new_user_join cfg now chat_id user_id user_name captcha join_msg_id
        (some img_id) st).2
      = [.deleteMsg pm.chat_id (some pm.msg_id_join0),
         .deleteMsg pm.chat_id (some pm.msg_id_join1),
         .deleteMsg pm.chat_id pm.msg_id_join2,
         .sendPhoto chat_id] := by
  have hfind : find_prev_user chat_id user_id st.new_users = some prev := by
    rw [find_prev_user, hu]; rfl
  have hprev := remove_prev_join_msgs_spec chat_id user_id st.join_msgs pm hj
  refine ⟨?_, ?_, ?_⟩
  · simp only [msg_new_user_join, hfind]
    exact replaceFirstEq_filter _ st.new_users prev _ hu (by simp [nu_match])
  · simp only [msg_new_user_join, hfind]
    rw [List.filter_append, hprev.1]
    simp [jm_match]
  · simp only [msg_new_user_join, hfind]
    rw [hprev.2]
    rfl

/-- Witness for C2: re-admitting a member whose live entry has retry count 3
keeps retry count 3, and the single prior artifact set is deleted and
replaced. -/
theorem msg_new_user_rejoin_witness :
    (msg_new_user_join ⟨9, 1, false, "-", 5, 5⟩ 50 1 2 "nn" "cc" 10 (some 11)
        ⟨[⟨1, 2, "n", "c", 0, 3, false⟩], [⟨1, 2, 5, 6, some 7⟩], []⟩).1.new_users.filter
        (nu_match 1 2)
      = [⟨1, 2, "nn", "cc", 50, 3, false⟩] ∧
    (msg_new_user_join ⟨9, 1, false, "-", 5, 5⟩ 50 1 2 "nn" "cc" 10 (some 11)
        ⟨[⟨1, 2, "n", "c", 0, 3, false⟩], [⟨1, 2, 5, 6, some 7⟩], []⟩).1.join_msgs.filter
        (jm_match 1 2)
      = [⟨1, 2, 10, 11, none⟩] ∧
    (msg_new_user_join ⟨9, 1, false, "-", 5, 5⟩ 50 1 2 "nn" "cc" 10 (some 11)
        ⟨[⟨1, 2, "n", "c", 0, 3, false⟩], [⟨1, 2, 5, 6, some 7⟩], []⟩).2
      = [.deleteMsg 1 (some 5), .deleteMsg 1 (some 6), .deleteMsg 1 (some 7),
         .sendPhoto 1] :=
  msg_new_user_rejoin ⟨9, 1, false, "-", 5, 5⟩ 50 1 2 "nn" "cc" 10 11
    ⟨[⟨1, 2, "n", "c", 0, 3, false⟩], [⟨1, 2, 5, 6, some 7⟩], []⟩
    ⟨1, 2, "n", "c", 0, 3, false⟩ ⟨1, 2, 5, 6, some 7⟩ (by decide) (by decide)

/-! ## Lemmas about the send model -/

theorem tlg_send_model_actions (now : ℚ) (bot_id chat_id : Int) (notice : NoticeKind)
    (t : ℚ) (res : Option Int) (sched : List SchedMsg) :
    (tlg_send_selfdestruct_msg_in_model now bot_id chat_id notice t res sched).actions
      = [.sendSelfdestruct chat_id notice t] := by
  cases res <;> rfl

theorem tlg_send_model_msg_id (now : ℚ) (bot_id chat_id : Int) (notice : NoticeKind)
    (t : ℚ) (res : Option Int) (sched : List SchedMsg) :
    (tlg_send_selfdestruct_msg_in_model now bot_id chat_id notice t res sched).msg_id
      = res := by
  cases res <;> rfl

theorem send_welcome_model_actions (cfg : ChatCfg) (now : ℚ) (chat_id : Int)
    (send_res : NoticeKind → Option Int) (sched : List SchedMsg)
    (hw : cfg.Welcome_Msg ≠ "-") :
    (send_welcome_msg_model cfg now chat_id true send_res sched).2
      = [.sendSelfdestruct chat_id .welcome cfg.T_DEL_WELCOME_MSG] := by
  have hwb : (cfg.Welcome_Msg != "-") = true := by simpa using hw
  simp [send_welcome_msg_model, hwb, tlg_send_model_actions]

/-! ## C4 — a correct answer resolves the challenge -/

/-- C4 counterexample: a pending member answers correctly and the challenge
resolves (the Pending entry is removed, the welcome message is sent), yet the
tracked join-notice message (`msg_id_join0 = 50`) is never deleted — its
deletion is commented out in the source — refuting the claim that the tracked
ephemeral messages are (all) deleted. -/
theorem captcha_solved_join_notice_not_deleted :
    ((msg_nocmd_pending ⟨9, 1, false, "w", 5, 5⟩ 100 (fun _ => false) 1 2 3 "4821" true
        (fun _ => some 99) 0
        ⟨[⟨1, 2, "n", "4821", 0, 1, false⟩], [⟨1, 2, 50, 6, some 7⟩], []⟩).st.new_users
      = []) ∧
    (Action.sendSelfdestruct 1 .welcome 5 ∈
      (msg_nocmd_pending ⟨9, 1, false, "w", 5, 5⟩ 100 (fun _ => false) 1 2 3 "4821" true
        (fun _ => some 99) 0
        ⟨[⟨1, 2, "n", "4821", 0, 1, false⟩], [⟨1, 2, 50, 6, some 7⟩], []⟩).actions) ∧
    (Action.deleteMsg 1 (some 50) ∉
      (msg_nocmd_pending ⟨9, 1, false, "w", 5, 5⟩ 100 (fun _ => false) 1 2 3 "4821" true
        (fun _ => some 99) 0
        ⟨[⟨1, 2, "n", "4821", 0, 1, false⟩], [⟨1, 2, 50, 6, some 7⟩], []⟩).actions) := by
  refine ⟨rfl, by decide, by decide⟩

/-- C4 (amended): a text from a pending member containing the expected answer
case-insensitively resolves the challenge: the captcha-image and wrong-answer
notice messages and the member's own message are deleted, the Pending entry
and its tracker entry are removed, the welcome message is sent, and the
text-only restriction is applied exactly when the chat's restrict flag is set
— but the join-notice message is not among the deletions. -/
theorem captcha_solved_resolves (cfg : ChatCfg) (now : ℚ) (det : String → Bool)
    (chat_id user_id msg_id : Int) (msg_text : String)
    (send_res : NoticeKind → Option Int) (rm_result : Int) (st : BotState)
    (nu : NewUser) (jm0 : JoinMsgs)
    (hu : st.new_users.filter (nu_match chat_id user_id) = [nu])
    (hj : st.join_msgs.filter (jm_match chat_id user_id) = [jm0])
    (hans : listContainsSub (strLower nu.captcha_num).data (strLower msg_text).data = true)
    (hw : cfg.Welcome_Msg ≠ "-") :
    (msg_nocmd_pending cfg now det chat_id user_id msg_id msg_text true send_res
        rm_result st).st.new_users.filter (nu_match chat_id user_id) = [] ∧
    (msg_nocmd_pending cfg now det chat_id user_id msg_id msg_text true send_res
        rm_result st).st.join_msgs.filter (jm_match chat_id user_id) = [] ∧
    (msg_nocmd_pending cfg now det chat_id user_id msg_id msg_text true send_res
        rm_result st).actions
      = [.deleteMsg jm0.chat_id (some jm0.msg_id_join1),
         .deleteMsg jm0.chat_id jm0.msg_id_join2,
         .deleteMsg chat_id (some msg_id),
         .sendSelfdestruct chat_id .welcome cfg.T_DEL_WELCOME_MSG]
        ++ (if cfg.Restrict_Non_Text then [Action.restrict chat_id user_id] else []) := by
  have hfind := find?_eq_of_filter_eq_singleton _ st.new_users nu hu
  have hsol := solved_remove_join_msgs_spec chat_id user_id st.join_msgs jm0 hj
  have hrm := pyListRemove_filter (nu_match chat_id user_id) st.new_users nu hu
  refine ⟨?_, ?_, ?_⟩
  · simp only [msg_nocmd_pending, hfind, hans, if_true]
    exact hrm
  · simp only [msg_nocmd_pending, hfind, hans, if_true]
    exact hsol.1
  · simp only [msg_nocmd_pending, hfind, hans, if_true]
    rw [hsol.2, send_welcome_model_actions cfg now chat_id send_res st.sched hw]
    simp

/-- Witness for C4 (amended): answer "X7k2" hidden inside surrounding text,
restrict flag set. -/
theorem captcha_solved_resolves_witness :
    (msg_nocmd_pending ⟨9, 1, true, "w", 5, 5⟩ 100 (fun _ => false) 1 2 3
        "here x7K2 you go" true (fun _ => some 99) 0
        ⟨[⟨1, 2, "n", "X7k2", 0, 1, false⟩], [⟨1, 2, 50, 6, some 7⟩],
          []⟩).st.new_users.filter (nu_match 1 2) = [] ∧
    (msg_nocmd_pending ⟨9, 1, true, "w", 5, 5⟩ 100 (fun _ => false) 1 2 3
        "here x7K2 you go" true (fun _ => some 99) 0
        ⟨[⟨1, 2, "n", "X7k2", 0, 1, false⟩], [⟨1, 2, 50, 6, some 7⟩],
          []⟩).st.join_msgs.filter (jm_match 1 2) = [] ∧
    (msg_nocmd_pending ⟨9, 1, true, "w", 5, 5⟩ 100 (fun _ => false) 1 2 3
        "here x7K2 you go" true (fun _ => some 99) 0
        ⟨[⟨1, 2, "n", "X7k2", 0, 1, false⟩], [⟨1, 2, 50, 6, some 7⟩], []⟩).actions
      = [.deleteMsg 1 (some 6), .deleteMsg 1 (some 7), .deleteMsg 1 (some 3),
         .sendSelfdestruct 1 .welcome 5]
        ++ (if (true : Bool) then [Action.restrict 1 2] else []) :=
  captcha_solved_resolves ⟨9, 1, true, "w", 5, 5⟩ 100 (fun _ => false) 1 2 3
    "here x7K2 you go" (fun _ => some 99) 0
    ⟨[⟨1, 2, "n", "X7k2", 0, 1, false⟩], [⟨1, 2, 50, 6, some 7⟩], []⟩
    ⟨1, 2, "n", "X7k2", 0, 1, false⟩ ⟨1, 2, 50, 6, some 7⟩
    (by decide) (by decide) (by decide) (by decide)

/-! ## C7 — plausible-but-wrong answers are scheduled, not deleted instantly -/

/-- C7: a wrong answer of exactly 4 characters or purely numeric replaces the
previous wrong-answer notice (the old one is deleted and the tracker entry's
notice field becomes the newly sent notice id) and schedules the member's raw
message for deletion at the receipt time plus exactly 1 minute; the raw
message is not deleted instantly. -/
theorem wrong_attempt_delayed_deletion (cfg : ChatCfg) (now : ℚ) (det : String → Bool)
    (chat_id user_id msg_id : Int) (msg_text : String) (upd : Bool)
    (send_res : NoticeKind → Option Int) (rm_result : Int) (st : BotState)
    (nu : NewUser) (jm0 : JoinMsgs)
    (hu : st.new_users.filter (nu_match chat_id user_id) = [nu])
    (hj : st.join_msgs.filter (jm_match chat_id user_id) = [jm0])
    (hans : listContainsSub (strLower nu.captcha_num).data (strLower msg_text).data = false)
    (hlen : msg_text.length = 4 ∨ is_int msg_text = true)
    (hne : jm0.msg_id_join2 ≠ some msg_id) :
    ((⟨chat_id, user_id, msg_id, now + 1 * 60⟩ : SchedMsg) ∈
      (msg_nocmd_pending cfg now det chat_id user_id msg_id msg_text upd send_res
        rm_result st).st.sched) ∧
    (Action.deleteMsg chat_id (some msg_id) ∉
      (msg_nocmd_pending cfg now det chat_id user_id msg_id msg_text upd send_res
        rm_result st).actions) ∧
    (Action.deleteMsg jm0.chat_id jm0.msg_id_join2 ∈
      (msg_nocmd_pending cfg now det chat_id user_id msg_id msg_text upd send_res
        rm_result st).actions) ∧
    ((msg_nocmd_pending cfg now det chat_id user_id msg_id msg_text upd send_res
        rm_result st).st.join_msgs.filter (jm_match chat_id user_id)
      = [{ jm0 with msg_id_join2 :=
            send_res (if msg_text.length == 4 then .incorrect0 else .incorrect1) }]) := by
  have hfind := find?_eq_of_filter_eq_singleton _ st.new_users nu hu
  have key : ∀ nk : NoticeKind,
      ((⟨chat_id, user_id, msg_id, now + 1 * 60⟩ : SchedMsg) ∈
        (wrong_attempt_branch cfg now chat_id user_id msg_id nk send_res st).st.sched) ∧
      (Action.deleteMsg chat_id (some msg_id) ∉
        (wrong_attempt_branch cfg now chat_id user_id msg_id nk send_res st).actions) ∧
      (Action.deleteMsg jm0.chat_id jm0.msg_id_join2 ∈
        (wrong_attempt_branch cfg now chat_id user_id msg_id nk send_res st).actions) ∧
      ((wrong_attempt_branch cfg now chat_id user_id msg_id nk send_res
          st).st.join_msgs.filter (jm_match chat_id user_id)
        = [{ jm0 with msg_id_join2 := send_res nk }]) := by
    intro nk
    refine ⟨?_, ?_, ?_, ?_⟩
    · simp only [wrong_attempt_branch, tlg_msg_to_selfdestruct_in]
      exact List.mem_append.mpr (Or.inr (List.mem_singleton_self _))
    · simp only [wrong_attempt_branch, hj, tlg_send_model_actions, List.map_cons,
        List.map_nil, List.cons_append, List.nil_append]
      intro hmem
      simp only [List.mem_cons, List.not_mem_nil, or_false] at hmem
      rcases hmem with hmem | hmem
      · injection hmem with h1 h2
        exact hne h2.symm
      · exact Action.noConfusion hmem
    · simp only [wrong_attempt_branch, hj, List.map_cons, List.map_nil]
      exact List.mem_append.mpr (Or.inl (List.mem_singleton_self _))
    · simp only [wrong_attempt_branch, tlg_send_model_msg_id]
      exact update_join2_filter chat_id user_id (send_res nk) st.join_msgs jm0 hj
  by_cases h4 : msg_text.length == 4
  · have := key .incorrect0
    simp only [msg_nocmd_pending, hfind, hans, Bool.false_eq_true, if_false, h4,
      if_true] at this ⊢
    simpa [h4] using this
  · have hint : is_int msg_text = true := by
      rcases hlen with h | h
      · exact absurd (by simpa using h) h4
      · exact h
    have := key .incorrect1
    simp only [msg_nocmd_pending, hfind, hans, Bool.false_eq_true, if_false, h4,
      hint, if_true] at this ⊢
    simpa [h4] using this

/-- Witness for C7: wrong 4-character answer "1234" against expected "abcd". -/
theorem wrong_attempt_delayed_deletion_witness :
    ((⟨1, 2, 3, (100 : ℚ) + 1 * 60⟩ : SchedMsg) ∈
      (msg_nocmd_pending ⟨9, 1, false, "w", 5, 5⟩ 100 (fun _ => false) 1 2 3 "1234" true
        (fun _ => some 99) 0
        ⟨[⟨1, 2, "n", "abcd", 0, 1, false⟩], [⟨1, 2, 50, 6, some 7⟩], []⟩).st.sched) ∧
    (Action.deleteMsg 1 (some 3) ∉
      (msg_nocmd_pending ⟨9, 1, false, "w", 5, 5⟩ 100 (fun _ => false) 1 2 3 "1234" true
        (fun _ => some 99) 0
        ⟨[⟨1, 2, "n", "abcd", 0, 1, false⟩], [⟨1, 2, 50, 6, some 7⟩], []⟩).actions) ∧
    (Action.deleteMsg 1 (some 7) ∈
      (msg_nocmd_pending ⟨9, 1, false, "w", 5, 5⟩ 100 (fun _ => false) 1 2 3 "1234" true
        (fun _ => some 99) 0
        ⟨[⟨1, 2, "n", "abcd", 0, 1, false⟩], [⟨1, 2, 50, 6, some 7⟩], []⟩).actions) ∧
    ((msg_nocmd_pending ⟨9, 1, false, "w", 5, 5⟩ 100 (fun _ => false) 1 2 3 "1234" true
        (fun _ => some 99) 0
        ⟨[⟨1, 2, "n", "abcd", 0, 1, false⟩], [⟨1, 2, 50, 6, some 7⟩],
          []⟩).st.join_msgs.filter (jm_match 1 2)
      = [⟨1, 2, 50, 6,
          (fun (_ : NoticeKind) => some (99 : Int))
            (if ("1234" : String).length == 4 then .incorrect0 else .incorrect1)⟩]) :=
  wrong_attempt_delayed_deletion ⟨9, 1, false, "w", 5, 5⟩ 100 (fun _ => false) 1 2 3
    "1234" true (fun _ => some 99) 0
    ⟨[⟨1, 2, "n", "abcd", 0, 1, false⟩], [⟨1, 2, 50, 6, some 7⟩], []⟩
    ⟨1, 2, "n", "abcd", 0, 1, false⟩ ⟨1, 2, 50, 6, some 7⟩
    (by decide) (by decide) (by decide) (Or.inl (by decide)) (by decide)

/-! ## C8 — URL/handle spam scan -/

/-- C8 counterexample: the scenario text, containing a URL recognized by the
detector, sent by a member with no Pending entry, is left completely
untouched: no deletion and no spam notice — refuting the claim that such
messages from non-pending members are deleted. -/
theorem spam_check_nonpending_untouched :
    ((msg_nocmd_pending ⟨9, 1, false, "w", 5, 5⟩ 100
        (fun s => listContainsSub "http://".data s.data) 1 2 3
        "4821 check this out http://example.com" true (fun _ => some 99) 1
        ⟨[], [], []⟩).actions = []) ∧
    ((msg_nocmd_pending ⟨9, 1, false, "w", 5, 5⟩ 100
        (fun s => listContainsSub "http://".data s.data) 1 2 3
        "4821 check this out http://example.com" true (fun _ => some 99) 1
        ⟨[], [], []⟩).st = ⟨[], [], []⟩) ∧
    ((fun s => listContainsSub "http://".data s.data)
        "4821 check this out http://example.com" = true) := by
  refine ⟨rfl, rfl, by decide⟩

/-- C8 (amended): a text from a member who IS pending a challenge, that is not
the correct answer, not 4 characters long and not purely numeric, and that
contains a URL (per the detector) or an at-handle token, is deleted (delete
result 1) and a spam notice is sent whose self-destruct lifetime equals the
chat's challenge timeout. -/
theorem spam_check_pending_member (cfg : ChatCfg) (now : ℚ) (det : String → Bool)
    (chat_id user_id msg_id : Int) (msg_text : String) (upd : Bool)
    (send_res : NoticeKind → Option Int) (st : BotState) (nu : NewUser)
    (hu : st.new_users.filter (nu_match chat_id user_id) = [nu])
    (hans : listContainsSub (strLower nu.captcha_num).data (strLower msg_text).data = false)
    (hlen : msg_text.length ≠ 4)
    (hint : is_int msg_text = false)
    (hurl : (det msg_text || has_alias msg_text) = true) :
    (msg_nocmd_pending cfg now det chat_id user_id msg_id msg_text upd send_res 1
        st).actions
      = [.deleteMsg chat_id (some msg_id),
         .sendSelfdestruct chat_id .spamRm cfg.Captcha_Time] := by
  have hfind := find?_eq_of_filter_eq_singleton _ st.new_users nu hu
  have h4 : (msg_text.length == 4) = false := by simpa using hlen
  simp [msg_nocmd_pending, hfind, hans, h4, hint, hurl, tlg_send_model_actions]

/-- Witness for C8 (amended): a pending member sends the scenario URL text. -/
theorem spam_check_pending_member_witness :
    (msg_nocmd_pending ⟨9, 1, false, "w", 5, 12⟩ 100
        (fun s => listContainsSub "http://".data s.data) 1 2 3
        "4821 check this out http://example.com" true (fun _ => some 99) 1
        ⟨[⟨1, 2, "n", "9999", 0, 1, false⟩], [], []⟩).actions
      = [.deleteMsg 1 (some 3),
         .sendSelfdestruct 1 .spamRm (⟨9, 1, false, "w", 5, 12⟩ : ChatCfg).Captcha_Time] :=
  spam_check_pending_member ⟨9, 1, false, "w", 5, 12⟩ 100
    (fun s => listContainsSub "http://".data s.data) 1 2 3
    "4821 check this out http://example.com" true (fun _ => some 99)
    ⟨[⟨1, 2, "n", "9999", 0, 1, false⟩], [], []⟩ ⟨1, 2, "n", "9999", 0, 1, false⟩
    (by decide) (by decide) (by decide) (by decide) (by decide)

end CaptchaBot
